import Mathlib

/-
Verification of the schema-design core of the `sqlmaker` repository
(src/src/temp.js): the in-memory relational schema model, the name
resolver, the schema-store commit operations, the relationship engine,
the project import/export layer and the DDL generator.

JavaScript semantics are embedded shallowly:
- JS strings are Lean `String`; `toLowerCase()` is `toLowerStr` (per-char
  ASCII lowering, as JS does on ASCII identifiers) and `trim()` is
  `trimStr` (strip leading/trailing whitespace).
- The decimal rendering `${i}` of a natural number is `natRepr`.
- `Array.prototype.join(sep)` is `joinSep`.
- JS objects are Lean structures; object keys that a given code path
  never sets (and that the code only ever reads through truthiness
  tests) are modelled by their falsy defaults (`false` / `""`).
- Fresh identifiers produced by `Date.now()` / `crypto.randomUUID()`
  are passed in as explicit parameters.
- React `setTables` / `setRelationships` state updates are modelled by
  returning an updated `DesignerState`; an early `return` with only a
  status message corresponds to returning the state unchanged together
  with a `some`-error.
-/

namespace SQLMaker

/-- Per-character lowering of a string, the model of JS
`String.prototype.toLowerCase` on the ASCII identifiers this program
manipulates. -/
def toLowerStr (s : String) : String := ⟨s.data.map Char.toLower⟩

/-- Strip leading and trailing whitespace, the model of JS
`String.prototype.trim`. -/
def trimStr (s : String) : String :=
  ⟨((s.data.dropWhile Char.isWhitespace).reverse.dropWhile Char.isWhitespace).reverse⟩

/-- Decimal digit character, `0 ↦ '0', …, 9 ↦ '9'`. -/
def digitChar (d : Nat) : Char := Char.ofNat (48 + d)

/-- Fuel-driven most-significant-first decimal digit list of a natural
number. -/
def natReprAux : Nat → Nat → List Char
  | 0, _ => []
  | fuel+1, n =>
    if n < 10 then [digitChar n]
    else natReprAux fuel (n / 10) ++ [digitChar (n % 10)]

/-- Decimal rendering of a natural number, the model of JS template
interpolation of the loop counter. -/
def natRepr (n : Nat) : String := ⟨natReprAux (n+1) n⟩

/-- Join a list of strings with a separator, the model of JS
`Array.prototype.join`. -/
def joinSep (sep : String) : List String → String
  | [] => ""
  | [a] => a
  | a :: rest => a ++ sep ++ joinSep sep rest

/-- Column record of the schema model (src/src/temp.js, DEFAULT_FIELD and
the field rows built by the table modal and the relationship engine).
Keys a construction site leaves unset are modelled by the falsy
defaults the code observes for them. -/
structure Field where
  id : String
  name : String
  type : String
  isPrimary : Bool := false
  isNull : Bool := false
  isUnique : Bool := false
  autoIncrement : Bool := false
  default : String := ""
  isForeignKey : Bool := false
  references : String := ""
deriving DecidableEq, Repr

/-- Table record: identifier, display name and ordered field sequence. -/
structure Table where
  id : String
  name : String
  fields : List Field
deriving DecidableEq, Repr

/-- Relationship record as persisted by `saveRelationship`. -/
structure Relationship where
  id : String
  parentTableId : String
  childTableId : String
  parentField : String
  childField : String
  type : String
deriving DecidableEq, Repr

/-- The component state the schema operations read and write: the table
collection, the relationship collection and the selected SQL dialect. -/
structure DesignerState where
  tables : List Table
  relationships : List Relationship
  dialect : String
deriving DecidableEq, Repr

/-- Draft table edited in the table modal before `saveTable` commits it. -/
structure TableDraft where
  name : String
  fields : List Field
deriving DecidableEq, Repr

/-- Draft relationship edited in the relationship modal before
`saveRelationship` commits it. -/
structure RelDraft where
  parentTableId : String
  childTableId : String
  parentField : String
  childField : String
  type : String
deriving DecidableEq, Repr

/-- The column type enumeration (src/src/temp.js, DATA_TYPES). -/
def DATA_TYPES : List String :=
  ["INTEGER", "BIGINT", "TEXT", "VARCHAR(255)",
   "BOOLEAN", "DATE", "TIMESTAMP", "REAL", "DECIMAL"]

/-- The default primary-key field (src/src/temp.js, DEFAULT_FIELD); its
generated id is passed in. -/
def DEFAULT_FIELD (id : String) : Field :=
  { id := id, name := "id", type := "INTEGER", isPrimary := true,
    isNull := false, isUnique := false, autoIncrement := true, default := "" }

/-- The k-th candidate tried by `uniqueName`: the base itself, then
`base_1`, `base_2`, …. -/
def candidate (base : String) : Nat → String
  | 0 => base
  | k+1 => base ++ "_" ++ natRepr (k+1)

/-- The collision loop of `uniqueName` (src/src/temp.js lines 27-35).
The JS `while` is unbounded; it is embedded with explicit fuel, and
`uniqueNameGo_spec` shows the fuel chosen by `uniqueName` is never
exhausted. -/
def uniqueNameGo (base : String) (existing : List String) : Nat → Nat → String
  | k, 0 => candidate base k
  | k, fuel+1 =>
    if toLowerStr (candidate base k) ∈ existing then
      uniqueNameGo base existing (k+1) fuel
    else candidate base k

/-- Name resolver (src/src/temp.js, `uniqueName`): starting from `base`,
append `_1`, `_2`, … until the lowercased candidate no longer occurs
among the lowercased names of the given items. -/
def uniqueName (base : String) (list : List Table) : String :=
  uniqueNameGo base (list.map (fun x => toLowerStr x.name)) 0 (list.length + 1)

/-- Validation errors of the schema store, in the order `saveTable`
checks them. -/
inductive SaveTableError
  | emptyName
  | nameConflict
  | noFields
  | noPrimary
  | dupFieldNames
deriving DecidableEq, Repr

/-- Errors of the relationship commit path. -/
inductive RelError
  | invalidEndpoints
  | missingTable
deriving DecidableEq, Repr

/-- Table commit (src/src/temp.js, `saveTable`, lines 90-131): validate
the draft, then either replace the edited table or append a fresh one.
`editingTable` is `some id` in edit mode and `none` in create mode; the
fresh identifier from `crypto.randomUUID()` is the `newId` parameter.
An error result carries the unchanged state together with the status
message's error kind. -/
def saveTable (s : DesignerState) (editingTable : Option String)
    (tableDraft : TableDraft) (newId : String) : DesignerState × Option SaveTableError :=
  if trimStr tableDraft.name = "" then (s, some SaveTableError.emptyName)
  else if s.tables.any (fun t =>
      toLowerStr (trimStr t.name) = toLowerStr (trimStr tableDraft.name)
        ∧ some t.id ≠ editingTable) then
    (s, some SaveTableError.nameConflict)
  else if tableDraft.fields.length = 0 then (s, some SaveTableError.noFields)
  else if ¬ tableDraft.fields.any (fun f => f.isPrimary) then
    (s, some SaveTableError.noPrimary)
  else if (tableDraft.fields.map (fun f => toLowerStr f.name)).dedup.length
      ≠ (tableDraft.fields.map (fun f => toLowerStr f.name)).length then
    (s, some SaveTableError.dupFieldNames)
  else
    match editingTable with
    | some tid =>
      ({ s with tables := s.tables.map (fun t =>
          if t.id = tid then
            { id := tid, name := tableDraft.name, fields := tableDraft.fields }
          else t) }, none)
    | none =>
      ({ s with tables := s.tables ++
          [{ id := newId, name := tableDraft.name, fields := tableDraft.fields }] }, none)

/-- Table deletion (src/src/temp.js, `deleteTable`, lines 133-142):
drop the table with the given id and every relationship whose parent or
child endpoint is that id; a missing id is a no-op. -/
def deleteTable (s : DesignerState) (tableId : String) : DesignerState :=
  match s.tables.find? (fun t => t.id == tableId) with
  | none => s
  | some _ =>
    { s with
      tables := s.tables.filter (fun x => x.id ≠ tableId),
      relationships := s.relationships.filter (fun r =>
        r.parentTableId ≠ tableId ∧ r.childTableId ≠ tableId) }

/-- Foreign-key column name resolution of the relationship engine
(src/src/temp.js line 240): the draft's `childField`, trimmed, when that
is non-empty, else the lowercased parent name suffixed with `_id`. -/
def resolveFkName (relDraft : RelDraft) (parent : Table) : String :=
  if trimStr relDraft.childField = "" then toLowerStr parent.name ++ "_id"
  else trimStr relDraft.childField

/-- Fallback field used to model the JS expression
`parent.fields.find(f => f.isPrimary) || parent.fields[0]` when the
parent has no fields at all (in JS that path would read a property of
`undefined`; committed tables always have at least one field). -/
def emptyField : Field := { id := "", name := "", type := "" }

/-- Relationship commit (src/src/temp.js, `saveRelationship`, lines
193-272). Fresh identifiers generated by `Date.now()` /
`crypto.randomUUID()` are the parameters `jtId` (join table), `dfId`
(join table's default primary-key field), `fkAId`/`fkBId` (join table's
two foreign-key fields), `newFieldId` (foreign-key column added to the
child) and `newRelId` (relationship record). -/
def saveRelationship (s : DesignerState) (relDraft : RelDraft)
    (jtId dfId fkAId fkBId newFieldId newRelId : String) :
    DesignerState × Option RelError :=
  if relDraft.parentTableId = "" ∨ relDraft.childTableId = ""
      ∨ relDraft.parentTableId = relDraft.childTableId then
    (s, some RelError.invalidEndpoints)
  else
    match s.tables.find? (fun t => t.id == relDraft.parentTableId),
          s.tables.find? (fun t => t.id == relDraft.childTableId) with
    | some parent, some child =>
      if relDraft.type = "MANY_TO_MANY" then
        let joinName := uniqueName (parent.name ++ "_" ++ child.name ++ "_join") s.tables
        let joinTable : Table :=
          { id := jtId, name := joinName, fields :=
            [DEFAULT_FIELD dfId,
             { id := fkAId, name := toLowerStr parent.name ++ "_id", type := "INTEGER",
               isForeignKey := true, references := parent.id },
             { id := fkBId, name := toLowerStr child.name ++ "_id", type := "INTEGER",
               isForeignKey := true, references := child.id }] }
        let newRel : Relationship :=
          { id := newRelId, parentTableId := relDraft.parentTableId,
            childTableId := relDraft.childTableId, parentField := relDraft.parentField,
            childField := relDraft.childField, type := relDraft.type }
        ({ s with tables := s.tables ++ [joinTable],
                  relationships := s.relationships ++ [newRel] }, none)
      else
        let parentPK := match parent.fields.find? (fun f => f.isPrimary) with
          | some f => f
          | none => parent.fields.headD emptyField
        let fkName := resolveFkName relDraft parent
        let childHas := child.fields.any (fun f => toLowerStr f.name = toLowerStr fkName)
        let updatedChild : Table :=
          if ¬ childHas then
            { child with fields := child.fields ++
              [{ id := newFieldId, name := fkName,
                 type := if parentPK.type = "" then "INTEGER" else parentPK.type,
                 isForeignKey := true, references := parent.id,
                 isUnique := relDraft.type = "ONE_TO_ONE", isNull := false }] }
          else if relDraft.type = "ONE_TO_ONE" then
            { child with fields := child.fields.map (fun f =>
                if toLowerStr f.name = toLowerStr fkName then { f with isUnique := true }
                else f) }
          else child
        let newRel : Relationship :=
          { id := newRelId, parentTableId := relDraft.parentTableId,
            childTableId := relDraft.childTableId, parentField := parentPK.name,
            childField := fkName, type := relDraft.type }
        let newTables := s.tables.map (fun t => if t.id = child.id then updatedChild else t)
        ({ s with tables := newTables,
                  relationships := s.relationships ++ [newRel] }, none)
    | _, _ => (s, some RelError.missingTable)

/-- Join-table lookup heuristic used on MANY_TO_MANY deletion
(src/src/temp.js lines 280-282): the first table having a foreign-key
field referencing either endpoint of the relationship. -/
def findJoinTable (tables : List Table) (rel : Relationship) : Option Table :=
  tables.find? (fun t => t.fields.any (fun f =>
    f.isForeignKey && (f.references == rel.parentTableId
      || f.references == rel.childTableId)))

/-- Relationship deletion (src/src/temp.js, `deleteRelationship`, lines
274-304): for MANY_TO_MANY remove the located join table (when one is
found) and the relationship record; otherwise strip from the child
table every foreign-key field referencing the parent and remove the
relationship record. -/
def deleteRelationship (s : DesignerState) (relId : String) : DesignerState :=
  match s.relationships.find? (fun r => r.id == relId) with
  | none => s
  | some rel =>
    if rel.type = "MANY_TO_MANY" then
      let tables' := match findJoinTable s.tables rel with
        | some joinTable => s.tables.filter (fun t => t.id ≠ joinTable.id)
        | none => s.tables
      { s with tables := tables',
               relationships := s.relationships.filter (fun r => r.id ≠ relId) }
    else
      let tables' := match s.tables.find? (fun t => t.id == rel.childTableId) with
        | some child =>
          s.tables.map (fun t =>
            if t.id = child.id then
              { child with fields := child.fields.filter (fun f =>
                  ¬ (f.isForeignKey = true ∧ f.references = rel.parentTableId)) }
            else t)
        | none => s.tables
      { s with tables := tables',
               relationships := s.relationships.filter (fun r => r.id ≠ relId) }

/-- Serialized project document (src/src/temp.js, `exportJSON` /
`importJSON`): the three top-level keys of the JSON payload. An `Option`
value models presence of the key (the JSON string round trip itself,
`JSON.parse ∘ JSON.stringify`, is the identity on the document). -/
structure ProjectDoc where
  tables : Option (List Table)
  relationships : Option (List Relationship)
  dialect : Option String
deriving DecidableEq, Repr

/-- Project export (src/src/temp.js, `exportJSON`, lines 307-316):
serialize the three state collections, all keys present. -/
def exportJSON (s : DesignerState) : ProjectDoc :=
  { tables := some s.tables, relationships := some s.relationships,
    dialect := some s.dialect }

/-- Project import (src/src/temp.js, `importJSON`, lines 318-335):
reject the document unless `tables` is present as a sequence; default a
missing `relationships` to the empty sequence and a missing or falsy
`dialect` to `postgres`. -/
def importJSON (doc : ProjectDoc) : Except String DesignerState :=
  match doc.tables with
  | none => Except.error "Invalid file"
  | some ts =>
    Except.ok
      { tables := ts,
        relationships := doc.relationships.getD [],
        dialect := match doc.dialect with
          | none => "postgres"
          | some dl => if dl = "" then "postgres" else dl }

/-- Identifier quoting of the DDL generator (src/src/temp.js line 339):
backticks for the mysql dialect, double quotes otherwise. -/
def escapeId (forDialect : String) (n : String) : String :=
  if forDialect = "mysql" then "`" ++ n ++ "`" else "\"" ++ n ++ "\""

/-- Primary-key column name a FOREIGN KEY line points at (src/src/temp.js
line 358): the referenced table's first primary field's name, falling
back to the literal `id` when none is marked primary or its name is
empty. -/
def pkNameOrId (parent : Table) : String :=
  match parent.fields.find? (fun p => p.isPrimary) with
  | some p => if p.name = "" then "id" else p.name
  | none => "id"

/-- Column definition line of one field (src/src/temp.js lines 346-353):
quoted name and type, then in this fixed order PRIMARY KEY, NOT NULL,
UNIQUE and DEFAULT, each under its condition, joined by single spaces
and indented two spaces. -/
def fieldDef (forDialect : String) (f : Field) : String :=
  "  " ++ joinSep " "
    ([escapeId forDialect f.name ++ " " ++ f.type]
      ++ (if f.isPrimary then ["PRIMARY KEY"] else [])
      ++ (if ¬ f.isNull ∧ ¬ f.isPrimary then ["NOT NULL"] else [])
      ++ (if f.isUnique then ["UNIQUE"] else [])
      ++ (if f.default ≠ "" then ["DEFAULT '" ++ f.default ++ "'"] else []))

/-- FOREIGN KEY lines of one table (src/src/temp.js lines 355-361): one
line for each field that is a foreign key with a truthy reference whose
referenced table exists in the store; a reference that resolves to no
table emits nothing. -/
def fkDefs (allTables : List Table) (forDialect : String) (fields : List Field) : List String :=
  (fields.filter (fun f => f.isForeignKey && f.references != "")).filterMap (fun fk =>
    match allTables.find? (fun tt => tt.id == fk.references) with
    | some parent =>
      some ("  ,FOREIGN KEY (" ++ escapeId forDialect fk.name ++ ") REFERENCES "
        ++ escapeId forDialect parent.name ++ "(" ++ escapeId forDialect (pkNameOrId parent) ++ ")")
    | none => none)

/-- The three output lines one table contributes to the generated DDL
(src/src/temp.js lines 342-365): the CREATE TABLE header, the
comma-joined column and FOREIGN KEY lines, and the closing `);`. -/
def tableBlock (allTables : List Table) (forDialect : String) (t : Table) : List String :=
  ["CREATE TABLE " ++ escapeId forDialect t.name ++ " (",
   joinSep ",\n" (t.fields.map (fieldDef forDialect) ++ fkDefs allTables forDialect t.fields),
   ");\n"]

/-- DDL generation (src/src/temp.js, `generateSQL`, lines 338-368):
header comment lines followed by each table's block, newline-joined. -/
def generateSQL (s : DesignerState) (forDialect : String) : String :=
  joinSep "\n"
    (["-- Generated by SQLMaker", "-- Dialect: " ++ forDialect, ""]
      ++ (s.tables.map (tableBlock s.tables forDialect)).flatten)

theorem natReprAux_eq_digits : ∀ (fuel n : Nat), 0 < n → n < fuel →
    natReprAux fuel n = ((Nat.digits 10 n).map digitChar).reverse := by
  intro fuel
  induction fuel with
  | zero => intro n _ h; omega
  | succ fuel ih =>
    intro n hn hlt
    by_cases h10 : n < 10
    · have hd : Nat.digits 10 n = [n] := by
        rw [Nat.digits_def' (by norm_num : 1 < 10) hn]
        have hq : n / 10 = 0 := Nat.div_eq_of_lt h10
        rw [hq]
        simp [Nat.mod_eq_of_lt h10]
      simp [natReprAux, h10, hd]
    · have hq : 0 < n / 10 := Nat.div_pos (by omega) (by norm_num)
      have hqlt : n / 10 < fuel := by
        have := Nat.div_lt_self hn (by norm_num : 1 < 10)
        omega
      rw [Nat.digits_def' (by norm_num : 1 < 10) hn]
      simp [natReprAux, h10, ih (n / 10) hq hqlt]

theorem natRepr_data_of_pos (n : Nat) (hn : 0 < n) :
    (natRepr n).data = ((Nat.digits 10 n).map digitChar).reverse := by
  simpa [natRepr] using natReprAux_eq_digits (n+1) n hn (by omega)

theorem digitChar_inj {d e : Nat} (hd : d < 10) (he : e < 10)
    (h : digitChar d = digitChar e) : d = e := by
  interval_cases d <;> interval_cases e <;> simp_all [digitChar]

theorem map_digitChar_inj : ∀ (l₁ l₂ : List Nat), (∀ d ∈ l₁, d < 10) →
    (∀ d ∈ l₂, d < 10) → l₁.map digitChar = l₂.map digitChar → l₁ = l₂ := by
  intro l₁
  induction l₁ with
  | nil => intro l₂ _ _ h; cases l₂ <;> simp_all
  | cons a l ih =>
    intro l₂ h₁ h₂ h
    cases l₂ with
    | nil => simp_all
    | cons b l' =>
      simp only [List.map_cons, List.cons.injEq] at h
      have hab : a = b :=
        digitChar_inj (h₁ a (by simp)) (h₂ b (by simp)) h.1
      have : l = l' := ih l' (fun d hd => h₁ d (by simp [hd]))
        (fun d hd => h₂ d (by simp [hd])) h.2
      simp [hab, this]

theorem natRepr_inj_pos {m n : Nat} (hm : 0 < m) (hn : 0 < n)
    (h : natRepr m = natRepr n) : m = n := by
  have hdata : (natRepr m).data = (natRepr n).data := by rw [h]
  rw [natRepr_data_of_pos m hm, natRepr_data_of_pos n hn] at hdata
  have hrev := List.reverse_injective hdata
  have hdig : Nat.digits 10 m = Nat.digits 10 n :=
    map_digitChar_inj _ _
      (fun d hd => Nat.digits_lt_base (by norm_num) hd)
      (fun d hd => Nat.digits_lt_base (by norm_num) hd) hrev
  calc m = Nat.ofDigits 10 (Nat.digits 10 m) := (Nat.ofDigits_digits 10 m).symm
    _ = Nat.ofDigits 10 (Nat.digits 10 n) := by rw [hdig]
    _ = n := Nat.ofDigits_digits 10 n

theorem toLower_digit {d : Nat} (hd : d < 10) :
    Char.toLower (digitChar d) = digitChar d := by
  interval_cases d <;> decide

theorem map_toLower_natRepr (n : Nat) (hn : 0 < n) :
    (natRepr n).data.map Char.toLower = (natRepr n).data := by
  rw [natRepr_data_of_pos n hn]
  rw [List.map_reverse]
  congr 1
  rw [List.map_map]
  apply List.map_congr_left
  intro d hd
  exact toLower_digit (Nat.digits_lt_base (by norm_num) hd)

theorem candidate_data_succ (base : String) (k : Nat) :
    (candidate base (k+1)).data = base.data ++ '_' :: (natRepr (k+1)).data := by
  simp [candidate, String.data_append]

theorem toLowerStr_candidate_inj (base : String) :
    ∀ i j, toLowerStr (candidate base i) = toLowerStr (candidate base j) → i = j := by
  intro i j h
  have hdata : (candidate base i).data.map Char.toLower
      = (candidate base j).data.map Char.toLower := by
    have := congrArg String.data h
    simpa [toLowerStr] using this
  match i, j with
  | 0, 0 => rfl
  | 0, j+1 =>
    exfalso
    rw [candidate_data_succ base j] at hdata
    have := congrArg List.length hdata
    simp [candidate] at this
  | i+1, 0 =>
    exfalso
    rw [candidate_data_succ base i] at hdata
    have := congrArg List.length hdata
    simp [candidate] at this
  | i+1, j+1 =>
    rw [candidate_data_succ base i, candidate_data_succ base j] at hdata
    simp only [List.map_append, List.map_cons] at hdata
    have htail := List.append_cancel_left hdata
    simp only [List.cons.injEq] at htail
    have hmap : (natRepr (i+1)).data.map Char.toLower
        = (natRepr (j+1)).data.map Char.toLower := htail.2
    rw [map_toLower_natRepr (i+1) (by omega), map_toLower_natRepr (j+1) (by omega)] at hmap
    have : natRepr (i+1) = natRepr (j+1) := String.ext hmap
    have := natRepr_inj_pos (by omega) (by omega) this
    omega

theorem exists_free_candidate (base : String) (existing : List String) (k : Nat) :
    ∃ j, j < existing.length + 1 ∧ toLowerStr (candidate base (k + j)) ∉ existing := by
  by_contra hcon
  push_neg at hcon
  have hmaps : ∀ a : Fin (existing.length + 1),
      toLowerStr (candidate base (k + a.1)) ∈ existing.toFinset := by
    intro a
    rw [List.mem_toFinset]
    exact hcon a.1 a.2
  have hinj : Set.InjOn (fun a : Fin (existing.length + 1) =>
      toLowerStr (candidate base (k + a.1))) ↑(Finset.univ : Finset (Fin (existing.length + 1))) := by
    intro a _ b _ hab
    have := toLowerStr_candidate_inj base (k + a.1) (k + b.1) hab
    exact Fin.ext (by omega)
  have hcard := Finset.card_le_card_of_injOn
    (fun a : Fin (existing.length + 1) => toLowerStr (candidate base (k + a.1)))
    (fun a _ => hmaps a) hinj
  have h1 : (Finset.univ : Finset (Fin (existing.length + 1))).card
      = existing.length + 1 := by simp
  have h2 := List.toFinset_card_le existing
  omega

theorem uniqueNameGo_spec (base : String) (existing : List String) :
    ∀ (fuel k : Nat), (∃ j, j < fuel ∧ toLowerStr (candidate base (k + j)) ∉ existing) →
    toLowerStr (uniqueNameGo base existing k fuel) ∉ existing
    ∧ ∃ m, uniqueNameGo base existing k fuel = candidate base m ∧ k ≤ m
        ∧ ∀ j, k ≤ j → j < m → toLowerStr (candidate base j) ∈ existing := by
  intro fuel
  induction fuel with
  | zero => intro k h; obtain ⟨j, hj, _⟩ := h; omega
  | succ fuel ih =>
    intro k h
    by_cases hmem : toLowerStr (candidate base k) ∈ existing
    · have hstep : uniqueNameGo base existing k (fuel+1)
          = uniqueNameGo base existing (k+1) fuel := by
        simp [uniqueNameGo, hmem]
      obtain ⟨j, hj, hfree⟩ := h
      have hj0 : j ≠ 0 := by
        intro h0
        rw [h0] at hfree
        simp at hfree
        exact hfree hmem
      obtain ⟨j', rfl⟩ := Nat.exists_eq_succ_of_ne_zero hj0
      have hrec := ih (k+1) ⟨j', by omega, by
        have : k + 1 + j' = k + (j' + 1) := by omega
        rw [this]; exact hfree⟩
      rw [hstep]
      refine ⟨hrec.1, ?_⟩
      obtain ⟨m, hm, hkm, hmin⟩ := hrec.2
      refine ⟨m, hm, by omega, ?_⟩
      intro j hkj hjm
      by_cases hjk : j = k
      · rw [hjk]; exact hmem
      · exact hmin j (by omega) hjm
    · have hstep : uniqueNameGo base existing k (fuel+1) = candidate base k := by
        simp [uniqueNameGo, hmem]
      rw [hstep]
      exact ⟨hmem, k, rfl, le_refl k, fun j hkj hjk => absurd (lt_of_le_of_lt hkj hjk) (lt_irrefl k)⟩

/-- Claim C1: for every candidate base name and every collection of named
items, `uniqueName base list` returns a name not case-insensitively
present in the collection; it returns the unqualified base itself when
the collection holds no case-insensitive match for the base; and on a
collision it returns the first of `base`, `base_1`, `base_2`, … that no
longer collides (all candidates below the returned one collide).
Determinism and purity hold by construction, `uniqueName` being a plain
function of its two arguments. -/
theorem uniqueName_spec (base : String) (list : List Table) :
    (∀ x ∈ list, toLowerStr x.name ≠ toLowerStr (uniqueName base list))
    ∧ ((∀ x ∈ list, toLowerStr x.name ≠ toLowerStr base) → uniqueName base list = base)
    ∧ ∃ m, uniqueName base list = candidate base m
        ∧ ∀ j, j < m → toLowerStr (candidate base j) ∈ list.map (fun x => toLowerStr x.name) := by
  unfold uniqueName
  have hlen : (list.map (fun x => toLowerStr x.name)).length = list.length := by simp
  have hfree := exists_free_candidate base (list.map (fun x => toLowerStr x.name)) 0
  rw [hlen] at hfree
  have hspec := uniqueNameGo_spec base (list.map (fun x => toLowerStr x.name))
    (list.length + 1) 0 (by
      obtain ⟨j, hj, hf⟩ := hfree
      exact ⟨j, hj, by simpa using hf⟩)
  obtain ⟨hnotmem, m, hm, _, hmin⟩ := hspec
  refine ⟨?_, ?_, m, hm, fun j hj => hmin j (by omega) hj⟩
  · intro x hx heq
    apply hnotmem
    rw [← heq]
    exact List.mem_map_of_mem _ hx
  · intro hnone
    have h0 : toLowerStr (candidate base 0) ∉ list.map (fun x => toLowerStr x.name) := by
      simp only [candidate]
      intro hmem
      obtain ⟨x, hx, hxeq⟩ := List.mem_map.mp hmem
      exact hnone x hx hxeq
    have hm0 : m = 0 := by
      by_contra hne
      exact h0 (hmin 0 (by omega) (by omega))
    rw [hm, hm0]
    rfl

/-- Claim C2: any table draft with an empty trimmed name, with no
fields, with no field marked primary, or with two fields whose names
coincide case-insensitively is rejected by `saveTable` with a
validation error, in both create and edit mode, and the state — in
particular the table and relationship collections — is left exactly
unchanged: all checks run before any mutation. -/
theorem saveTable_invalid_draft_rejected (s : DesignerState) (editingTable : Option String)
    (draft : TableDraft) (newId : String)
    (h : trimStr draft.name = "" ∨ draft.fields = []
      ∨ (∀ f ∈ draft.fields, f.isPrimary = false)
      ∨ ¬ (draft.fields.map (fun f => toLowerStr f.name)).Nodup) :
    (saveTable s editingTable draft newId).1 = s
    ∧ (saveTable s editingTable draft newId).2.isSome = true := by
  unfold saveTable
  split
  · exact ⟨rfl, rfl⟩
  next h1 =>
    split
    · exact ⟨rfl, rfl⟩
    next =>
      split
      · exact ⟨rfl, rfl⟩
      next h3 =>
        split
        · exact ⟨rfl, rfl⟩
        next h4 =>
          split
          · exact ⟨rfl, rfl⟩
          next h5 =>
            exfalso
            rcases h with hc | hc | hc | hc
            · exact h1 hc
            · exact h3 (by simp [hc])
            · have hsome : draft.fields.any (fun f => f.isPrimary) = true := by
                by_contra hno
                exact h4 (by simpa using hno)
              obtain ⟨f, hf, hfp⟩ := List.any_eq_true.mp hsome
              rw [hc f hf] at hfp
              exact Bool.false_ne_true hfp
            · apply hc
              have heq : (draft.fields.map (fun f => toLowerStr f.name)).dedup.length
                  = (draft.fields.map (fun f => toLowerStr f.name)).length := by
                by_contra hne
                exact h5 hne
              have hself := List.Sublist.eq_of_length
                (List.dedup_sublist (draft.fields.map (fun f => toLowerStr f.name))) heq
              rw [← hself]
              exact List.nodup_dedup _

/-- Concrete instance of claim C2: a draft with a name but no fields is
rejected and the store is untouched. -/
theorem saveTable_invalid_draft_rejected_witness :
    (saveTable { tables := [], relationships := [], dialect := "postgres" } none
        { name := "users", fields := [] } "id1").1
      = { tables := [], relationships := [], dialect := "postgres" }
    ∧ (saveTable { tables := [], relationships := [], dialect := "postgres" } none
        { name := "users", fields := [] } "id1").2.isSome = true :=
  saveTable_invalid_draft_rejected _ none _ "id1" (Or.inr (Or.inl rfl))

theorem length_filter_id_ne (tid : String) : ∀ (l : List Table),
    (l.map Table.id).Nodup → (∃ t ∈ l, t.id = tid) →
    (l.filter (fun t => t.id ≠ tid)).length + 1 = l.length := by
  intro l
  induction l with
  | nil => intro _ hmem; simp at hmem
  | cons a l ih =>
    intro hnodup hmem
    simp only [List.map_cons, List.nodup_cons] at hnodup
    by_cases ha : a.id = tid
    · have hrest : ∀ t ∈ l, decide (t.id ≠ tid) = true := by
        intro t ht
        have hne : t.id ≠ tid := by
          intro htid
          apply hnodup.1
          rw [ha, ← htid]
          exact List.mem_map_of_mem Table.id ht
        simpa using hne
      have hfl : l.filter (fun t => t.id ≠ tid) = l := List.filter_eq_self.mpr hrest
      rw [List.filter_cons, if_neg (by simp [ha]), hfl]
      simp
    · obtain ⟨t, htmem, htid⟩ := hmem
      have htl : t ∈ l := by
        rcases List.mem_cons.mp htmem with rfl | hmem'
        · exact absurd htid ha
        · exact hmem'
      have hih := ih hnodup.2 ⟨t, htl, htid⟩
      rw [List.filter_cons, if_pos (by simpa using ha)]
      simp only [List.length_cons]
      omega

/-- Claim C6: deleting a table id that is present removes exactly the
table(s) with that id and exactly the relationships having it as parent
or child endpoint; every other table (in particular any table keeping a
now-dangling foreign-key field) and every other relationship survives
unchanged; with the store invariant of distinct table ids exactly one
table is removed. -/
theorem deleteTable_spec (s : DesignerState) (tableId : String)
    (hmem : ∃ t ∈ s.tables, t.id = tableId) :
    (deleteTable s tableId).tables = s.tables.filter (fun t => t.id ≠ tableId)
    ∧ (deleteTable s tableId).relationships = s.relationships.filter (fun r =>
        r.parentTableId ≠ tableId ∧ r.childTableId ≠ tableId)
    ∧ (∀ t, t ∈ (deleteTable s tableId).tables ↔ t ∈ s.tables ∧ t.id ≠ tableId)
    ∧ (∀ r, r ∈ (deleteTable s tableId).relationships ↔
        r ∈ s.relationships ∧ r.parentTableId ≠ tableId ∧ r.childTableId ≠ tableId)
    ∧ ((s.tables.map Table.id).Nodup →
        (deleteTable s tableId).tables.length + 1 = s.tables.length)
    ∧ (deleteTable s tableId).dialect = s.dialect := by
  obtain ⟨t₀, ht₀, hid₀⟩ := hmem
  have hfind : s.tables.find? (fun t => t.id == tableId) ≠ none := by
    intro hnone
    have := List.find?_eq_none.mp hnone t₀ ht₀
    simp [hid₀] at this
  unfold deleteTable
  cases hf : s.tables.find? (fun t => t.id == tableId) with
  | none => exact absurd hf hfind
  | some tfound =>
    refine ⟨rfl, rfl, ?_, ?_, ?_, rfl⟩
    · intro t
      simp [List.mem_filter]
    · intro r
      simp [List.mem_filter]
    · intro hnodup
      exact length_filter_id_ne tableId s.tables hnodup ⟨t₀, ht₀, hid₀⟩

/-- Concrete instance of claim C6: deleting table `u1` removes it and
the relationship referencing it, keeping the unrelated table. -/
theorem deleteTable_spec_witness :
    (deleteTable
      { tables := [{ id := "u1", name := "users", fields := [DEFAULT_FIELD "f1"] },
                   { id := "o1", name := "orders", fields := [DEFAULT_FIELD "f2"] }],
        relationships := [{ id := "r1", parentTableId := "u1", childTableId := "o1",
                            parentField := "id", childField := "users_id",
                            type := "ONE_TO_MANY" }],
        dialect := "postgres" } "u1").tables.map Table.id = ["o1"]
    ∧ (deleteTable
      { tables := [{ id := "u1", name := "users", fields := [DEFAULT_FIELD "f1"] },
                   { id := "o1", name := "orders", fields := [DEFAULT_FIELD "f2"] }],
        relationships := [{ id := "r1", parentTableId := "u1", childTableId := "o1",
                            parentField := "id", childField := "users_id",
                            type := "ONE_TO_MANY" }],
        dialect := "postgres" } "u1").relationships = [] := by
  have h := deleteTable_spec
    { tables := [{ id := "u1", name := "users", fields := [DEFAULT_FIELD "f1"] },
                 { id := "o1", name := "orders", fields := [DEFAULT_FIELD "f2"] }],
      relationships := [{ id := "r1", parentTableId := "u1", childTableId := "o1",
                          parentField := "id", childField := "users_id",
                          type := "ONE_TO_MANY" }],
      dialect := "postgres" } "u1"
    ⟨{ id := "u1", name := "users", fields := [DEFAULT_FIELD "f1"] }, by decide, rfl⟩
  refine ⟨?_, ?_⟩
  · rw [h.1]; decide
  · rw [h.2.1]; decide

/-- Claim C9: loading the serialized form of any project state whose
dialect is set (non-empty, as every valid dialect is) yields the
identical state back: the import/export round trip is the identity. -/
theorem importJSON_exportJSON_roundtrip (s : DesignerState) (hd : s.dialect ≠ "") :
    importJSON (exportJSON s) = Except.ok s := by
  simp only [importJSON, exportJSON, Option.getD_some, hd, if_false]

/-- Concrete instance of claim C9: round trip of a one-table project. -/
theorem importJSON_exportJSON_roundtrip_witness :
    importJSON (exportJSON
      { tables := [{ id := "u1", name := "users", fields := [DEFAULT_FIELD "f1"] }],
        relationships := [], dialect := "mysql" })
    = Except.ok
      { tables := [{ id := "u1", name := "users", fields := [DEFAULT_FIELD "f1"] }],
        relationships := [], dialect := "mysql" } :=
  importJSON_exportJSON_roundtrip _ (by decide)

/-- Claim C3: with two distinct existing tables resolved as parent and
child, committing a MANY_TO_MANY relationship appends exactly one new
table whose name is the uniquified `{parent.name}_{child.name}_join`
and whose field sequence is exactly a primary-key field, an INTEGER
foreign-key field referencing the parent's id and an INTEGER
foreign-key field referencing the child's id; exactly one relationship
record is appended; and the parent and child tables — hence their field
sequences — survive unchanged in the store. -/
theorem saveRelationship_many_to_many (s : DesignerState) (d : RelDraft)
    (jtId dfId fkAId fkBId newFieldId newRelId : String) (parent child : Table)
    (hp : s.tables.find? (fun t => t.id == d.parentTableId) = some parent)
    (hc : s.tables.find? (fun t => t.id == d.childTableId) = some child)
    (hpne : d.parentTableId ≠ "") (hcne : d.childTableId ≠ "")
    (hne : d.parentTableId ≠ d.childTableId)
    (ht : d.type = "MANY_TO_MANY") :
    ∃ jt pkF fkA fkB,
      (saveRelationship s d jtId dfId fkAId fkBId newFieldId newRelId).1.tables
        = s.tables ++ [jt]
      ∧ jt.name = uniqueName (parent.name ++ "_" ++ child.name ++ "_join") s.tables
      ∧ jt.fields = [pkF, fkA, fkB]
      ∧ pkF.isPrimary = true ∧ pkF.isForeignKey = false
      ∧ fkA.type = "INTEGER" ∧ fkA.isForeignKey = true ∧ fkA.references = parent.id
      ∧ fkB.type = "INTEGER" ∧ fkB.isForeignKey = true ∧ fkB.references = child.id
      ∧ (∃ r, (saveRelationship s d jtId dfId fkAId fkBId newFieldId newRelId).1.relationships
          = s.relationships ++ [r])
      ∧ parent ∈ (saveRelationship s d jtId dfId fkAId fkBId newFieldId newRelId).1.tables
      ∧ child ∈ (saveRelationship s d jtId dfId fkAId fkBId newFieldId newRelId).1.tables := by
  refine ⟨{ id := jtId, name := uniqueName (parent.name ++ "_" ++ child.name ++ "_join") s.tables,
            fields := [DEFAULT_FIELD dfId,
              { id := fkAId, name := toLowerStr parent.name ++ "_id", type := "INTEGER",
                isForeignKey := true, references := parent.id },
              { id := fkBId, name := toLowerStr child.name ++ "_id", type := "INTEGER",
                isForeignKey := true, references := child.id }] },
          DEFAULT_FIELD dfId,
          { id := fkAId, name := toLowerStr parent.name ++ "_id", type := "INTEGER",
            isForeignKey := true, references := parent.id },
          { id := fkBId, name := toLowerStr child.name ++ "_id", type := "INTEGER",
            isForeignKey := true, references := child.id },
          ?_, rfl, rfl, rfl, rfl, rfl, rfl, rfl, rfl, rfl, rfl,
          ⟨{ id := newRelId, parentTableId := d.parentTableId,
             childTableId := d.childTableId, parentField := d.parentField,
             childField := d.childField, type := d.type }, ?_⟩, ?_, ?_⟩
  · simp [saveRelationship, hp, hc, hpne, hcne, hne, ht]
  · simp [saveRelationship, hp, hc, hpne, hcne, hne, ht]
  · simp [saveRelationship, hp, hc, hpne, hcne, hne, ht]
    exact Or.inl (List.mem_of_find?_eq_some hp)
  · simp [saveRelationship, hp, hc, hpne, hcne, hne, ht]
    exact Or.inl (List.mem_of_find?_eq_some hc)

/-- Concrete instance of claim C3: a MANY_TO_MANY commit between the
`users` and `orders` tables synthesizes the 3-field join table. -/
theorem saveRelationship_many_to_many_witness :
    ∃ jt pkF fkA fkB,
      (saveRelationship
        { tables := [{ id := "u1", name := "users", fields := [DEFAULT_FIELD "f1"] },
                     { id := "o1", name := "orders", fields := [DEFAULT_FIELD "f2"] }],
          relationships := [], dialect := "postgres" }
        { parentTableId := "u1", childTableId := "o1", parentField := "",
          childField := "", type := "MANY_TO_MANY" }
        "jt" "df" "fa" "fb" "nf" "nr").1.tables
        = [{ id := "u1", name := "users", fields := [DEFAULT_FIELD "f1"] },
           { id := "o1", name := "orders", fields := [DEFAULT_FIELD "f2"] }] ++ [jt]
      ∧ jt.name = uniqueName ("users" ++ "_" ++ "orders" ++ "_join")
          [{ id := "u1", name := "users", fields := [DEFAULT_FIELD "f1"] },
           { id := "o1", name := "orders", fields := [DEFAULT_FIELD "f2"] }]
      ∧ jt.fields = [pkF, fkA, fkB]
      ∧ pkF.isPrimary = true ∧ pkF.isForeignKey = false
      ∧ fkA.type = "INTEGER" ∧ fkA.isForeignKey = true ∧ fkA.references = "u1"
      ∧ fkB.type = "INTEGER" ∧ fkB.isForeignKey = true ∧ fkB.references = "o1"
      ∧ (∃ r, (saveRelationship
          { tables := [{ id := "u1", name := "users", fields := [DEFAULT_FIELD "f1"] },
                       { id := "o1", name := "orders", fields := [DEFAULT_FIELD "f2"] }],
            relationships := [], dialect := "postgres" }
          { parentTableId := "u1", childTableId := "o1", parentField := "",
            childField := "", type := "MANY_TO_MANY" }
          "jt" "df" "fa" "fb" "nf" "nr").1.relationships = [] ++ [r])
      ∧ ({ id := "u1", name := "users", fields := [DEFAULT_FIELD "f1"] } : Table)
          ∈ (saveRelationship
          { tables := [{ id := "u1", name := "users", fields := [DEFAULT_FIELD "f1"] },
                       { id := "o1", name := "orders", fields := [DEFAULT_FIELD "f2"] }],
            relationships := [], dialect := "postgres" }
          { parentTableId := "u1", childTableId := "o1", parentField := "",
            childField := "", type := "MANY_TO_MANY" }
          "jt" "df" "fa" "fb" "nf" "nr").1.tables
      ∧ ({ id := "o1", name := "orders", fields := [DEFAULT_FIELD "f2"] } : Table)
          ∈ (saveRelationship
          { tables := [{ id := "u1", name := "users", fields := [DEFAULT_FIELD "f1"] },
                       { id := "o1", name := "orders", fields := [DEFAULT_FIELD "f2"] }],
            relationships := [], dialect := "postgres" }
          { parentTableId := "u1", childTableId := "o1", parentField := "",
            childField := "", type := "MANY_TO_MANY" }
          "jt" "df" "fa" "fb" "nf" "nr").1.tables :=
  saveRelationship_many_to_many
    { tables := [{ id := "u1", name := "users", fields := [DEFAULT_FIELD "f1"] },
                 { id := "o1", name := "orders", fields := [DEFAULT_FIELD "f2"] }],
      relationships := [], dialect := "postgres" }
    { parentTableId := "u1", childTableId := "o1", parentField := "",
      childField := "", type := "MANY_TO_MANY" }
    "jt" "df" "fa" "fb" "nf" "nr"
    { id := "u1", name := "users", fields := [DEFAULT_FIELD "f1"] }
    { id := "o1", name := "orders", fields := [DEFAULT_FIELD "f2"] }
    (by decide) (by decide) (by decide) (by decide) (by decide) rfl

/-- Claim C4: committing a ONE_TO_ONE relationship when the child
already has a field whose name case-insensitively equals the resolved
foreign-key name replaces the child by a table of the same field count
in which every such matching field has `isUnique` set to true — no
duplicate column is inserted. -/
theorem saveRelationship_one_to_one_existing_fk (s : DesignerState) (d : RelDraft)
    (jtId dfId fkAId fkBId newFieldId newRelId : String) (parent child : Table)
    (hp : s.tables.find? (fun t => t.id == d.parentTableId) = some parent)
    (hc : s.tables.find? (fun t => t.id == d.childTableId) = some child)
    (hpne : d.parentTableId ≠ "") (hcne : d.childTableId ≠ "")
    (hne : d.parentTableId ≠ d.childTableId)
    (ht : d.type = "ONE_TO_ONE")
    (hmatch : ∃ f ∈ child.fields,
      toLowerStr f.name = toLowerStr (resolveFkName d parent)) :
    ∃ child',
      (saveRelationship s d jtId dfId fkAId fkBId newFieldId newRelId).1.tables
        = s.tables.map (fun t => if t.id = child.id then child' else t)
      ∧ child'.id = child.id
      ∧ child'.fields.length = child.fields.length
      ∧ (∀ f ∈ child'.fields,
          toLowerStr f.name = toLowerStr (resolveFkName d parent) → f.isUnique = true)
      ∧ (∀ f ∈ child'.fields, ∃ g ∈ child.fields,
          f.name = g.name ∧ f.type = g.type ∧ f.id = g.id) := by
  have hcond : (∀ x ∈ child.fields,
      ¬ toLowerStr x.name = toLowerStr (resolveFkName d parent)) = False := by
    apply eq_false
    push_neg
    exact hmatch
  refine ⟨{ child with fields := child.fields.map (fun f =>
      if toLowerStr f.name = toLowerStr (resolveFkName d parent) then
        { f with isUnique := true } else f) }, ?_, rfl, by simp, ?_, ?_⟩
  · simp [saveRelationship, hp, hc, hpne, hcne, hne, ht, hcond]
  · intro f hf heq
    obtain ⟨a, _, rfl⟩ := List.mem_map.mp hf
    by_cases hcond : toLowerStr a.name = toLowerStr (resolveFkName d parent)
    · simp [hcond]
    · rw [if_neg hcond] at heq ⊢
      exact absurd heq hcond
  · intro f hf
    obtain ⟨a, ha, rfl⟩ := List.mem_map.mp hf
    by_cases hcond : toLowerStr a.name = toLowerStr (resolveFkName d parent)
    · exact ⟨a, ha, by simp [hcond]⟩
    · exact ⟨a, ha, by simp [hcond]⟩

/-- Concrete instance of claim C4: the child `orders` already carries a
field `Users_ID` matching the resolved name `users_id`; the ONE_TO_ONE
commit promotes it to unique without adding a column. -/
theorem saveRelationship_one_to_one_existing_fk_witness :
    ∃ child',
      (saveRelationship
        { tables := [{ id := "u1", name := "users", fields := [DEFAULT_FIELD "f1"] },
                     { id := "o1", name := "orders",
                       fields := [DEFAULT_FIELD "f2",
                         { id := "f3", name := "Users_ID", type := "INTEGER" }] }],
          relationships := [], dialect := "postgres" }
        { parentTableId := "u1", childTableId := "o1", parentField := "",
          childField := "", type := "ONE_TO_ONE" }
        "jt" "df" "fa" "fb" "nf" "nr").1.tables
        = List.map (fun t => if t.id = "o1" then child' else t)
            [{ id := "u1", name := "users", fields := [DEFAULT_FIELD "f1"] },
             { id := "o1", name := "orders",
               fields := [DEFAULT_FIELD "f2",
                 { id := "f3", name := "Users_ID", type := "INTEGER" }] }]
      ∧ child'.id = "o1"
      ∧ child'.fields.length =
          ([DEFAULT_FIELD "f2",
            { id := "f3", name := "Users_ID", type := "INTEGER" }] : List Field).length
      ∧ (∀ f ∈ child'.fields,
          toLowerStr f.name = toLowerStr (resolveFkName
            { parentTableId := "u1", childTableId := "o1", parentField := "",
              childField := "", type := "ONE_TO_ONE" }
            { id := "u1", name := "users", fields := [DEFAULT_FIELD "f1"] })
          → f.isUnique = true)
      ∧ (∀ f ∈ child'.fields, ∃ g ∈
          ([DEFAULT_FIELD "f2",
            { id := "f3", name := "Users_ID", type := "INTEGER" }] : List Field),
          f.name = g.name ∧ f.type = g.type ∧ f.id = g.id) :=
  saveRelationship_one_to_one_existing_fk
    { tables := [{ id := "u1", name := "users", fields := [DEFAULT_FIELD "f1"] },
                 { id := "o1", name := "orders",
                   fields := [DEFAULT_FIELD "f2",
                     { id := "f3", name := "Users_ID", type := "INTEGER" }] }],
      relationships := [], dialect := "postgres" }
    { parentTableId := "u1", childTableId := "o1", parentField := "",
      childField := "", type := "ONE_TO_ONE" }
    "jt" "df" "fa" "fb" "nf" "nr"
    { id := "u1", name := "users", fields := [DEFAULT_FIELD "f1"] }
    { id := "o1", name := "orders",
      fields := [DEFAULT_FIELD "f2",
        { id := "f3", name := "Users_ID", type := "INTEGER" }] }
    (by decide) (by decide) (by decide) (by decide) (by decide) rfl
    ⟨{ id := "f3", name := "Users_ID", type := "INTEGER" }, by decide, by decide⟩

/-- Counterexample to claim C5 as stated: with a whitespace-padded draft
`childField` of `" "` — non-empty, so per the claim the resolved
foreign-key name — the code trims it to the empty string and falls back
to `users_id`; the persisted record's `childField` is `users_id`, not
the draft's non-empty `childField`. -/
theorem saveRelationship_one_to_many_untrimmed_childField :
    ((saveRelationship
        { tables := [{ id := "u1", name := "users", fields := [DEFAULT_FIELD "f1"] },
                     { id := "o1", name := "orders", fields := [DEFAULT_FIELD "f2"] }],
          relationships := [], dialect := "postgres" }
        { parentTableId := "u1", childTableId := "o1", parentField := "",
          childField := " ", type := "ONE_TO_MANY" }
        "jt" "df" "fa" "fb" "nf" "nr").1.relationships.map
          (fun r => r.childField)) = ["users_id"]
    ∧ (" " : String) ≠ "" ∧ (" " : String) ≠ "users_id" := by decide

/-- Claim C5 (amended: the resolved foreign-key name is the draft's
`childField` trimmed of surrounding whitespace when non-empty after
trimming, else the lowercased `{parent.name}_id`; the parent
primary-key type is one of the declared column types, per the data
model): committing a ONE_TO_MANY relationship when the child has no
field case-insensitively matching the resolved name appends exactly one
field to the child; the new field carries the parent primary key's
type, `isForeignKey = true`, `references` = parent id, `isNull = false`
and `isUnique = false`; and the persisted record has `parentField` =
parent primary key's name and `childField` = the resolved name. -/
theorem saveRelationship_one_to_many_new_fk (s : DesignerState) (d : RelDraft)
    (jtId dfId fkAId fkBId newFieldId newRelId : String) (parent child : Table) (pk : Field)
    (hp : s.tables.find? (fun t => t.id == d.parentTableId) = some parent)
    (hc : s.tables.find? (fun t => t.id == d.childTableId) = some child)
    (hpne : d.parentTableId ≠ "") (hcne : d.childTableId ≠ "")
    (hne : d.parentTableId ≠ d.childTableId)
    (ht : d.type = "ONE_TO_MANY")
    (hpk : parent.fields.find? (fun f => f.isPrimary) = some pk)
    (hty : pk.type ∈ DATA_TYPES)
    (hnomatch : ∀ f ∈ child.fields,
      toLowerStr f.name ≠ toLowerStr (resolveFkName d parent)) :
    ∃ child' newF r,
      (saveRelationship s d jtId dfId fkAId fkBId newFieldId newRelId).1.tables
        = s.tables.map (fun t => if t.id = child.id then child' else t)
      ∧ child'.fields = child.fields ++ [newF]
      ∧ child'.fields.length = child.fields.length + 1
      ∧ newF.name = resolveFkName d parent
      ∧ (trimStr d.childField ≠ "" → newF.name = trimStr d.childField)
      ∧ (trimStr d.childField = "" → newF.name = toLowerStr parent.name ++ "_id")
      ∧ newF.type = pk.type
      ∧ newF.isForeignKey = true
      ∧ newF.references = parent.id
      ∧ newF.isNull = false
      ∧ newF.isUnique = false
      ∧ (saveRelationship s d jtId dfId fkAId fkBId newFieldId newRelId).1.relationships
        = s.relationships ++ [r]
      ∧ r.parentField = pk.name
      ∧ r.childField = resolveFkName d parent
      ∧ r.parentTableId = d.parentTableId ∧ r.childTableId = d.childTableId
      ∧ r.type = d.type := by
  have htyne : pk.type ≠ "" := by
    intro h0
    rw [h0] at hty
    exact absurd hty (by decide)
  have htyF : (pk.type = "") = False := eq_false htyne
  have hcond : (∀ x ∈ child.fields,
      ¬ toLowerStr x.name = toLowerStr (resolveFkName d parent)) = True :=
    eq_true hnomatch
  refine ⟨{ child with fields := child.fields ++
      [{ id := newFieldId, name := resolveFkName d parent, type := pk.type,
         isForeignKey := true, references := parent.id,
         isUnique := false, isNull := false }] },
    { id := newFieldId, name := resolveFkName d parent, type := pk.type,
      isForeignKey := true, references := parent.id,
      isUnique := false, isNull := false },
    { id := newRelId, parentTableId := d.parentTableId,
      childTableId := d.childTableId, parentField := pk.name,
      childField := resolveFkName d parent, type := d.type },
    ?_, rfl, by simp, rfl, ?_, ?_, rfl, rfl, rfl, rfl, rfl, ?_, rfl, rfl, rfl, rfl, rfl⟩
  · simp [saveRelationship, hp, hc, hpne, hcne, hne, ht, hpk, hcond, htyF]
  · intro hcf
    simp [resolveFkName, hcf]
  · intro hcf
    simp [resolveFkName, hcf]
  · simp [saveRelationship, hp, hc, hpne, hcne, hne, ht, hpk, hcond]

/-- Concrete instance of the amended claim C5: scenario 3 of the spec —
ONE_TO_MANY from `users` to `orders` with empty draft `childField`
appends the `users_id` INTEGER foreign-key column. -/
theorem saveRelationship_one_to_many_new_fk_witness :
    ∃ child' newF r,
      (saveRelationship
        { tables := [{ id := "u1", name := "users", fields := [DEFAULT_FIELD "f1"] },
                     { id := "o1", name := "orders", fields := [DEFAULT_FIELD "f2"] }],
          relationships := [], dialect := "postgres" }
        { parentTableId := "u1", childTableId := "o1", parentField := "",
          childField := "", type := "ONE_TO_MANY" }
        "jt" "df" "fa" "fb" "nf" "nr").1.tables
        = List.map (fun t => if t.id = "o1" then child' else t)
            [{ id := "u1", name := "users", fields := [DEFAULT_FIELD "f1"] },
             { id := "o1", name := "orders", fields := [DEFAULT_FIELD "f2"] }]
      ∧ child'.fields = [DEFAULT_FIELD "f2"] ++ [newF]
      ∧ child'.fields.length = ([DEFAULT_FIELD "f2"] : List Field).length + 1
      ∧ newF.name = resolveFkName
          { parentTableId := "u1", childTableId := "o1", parentField := "",
            childField := "", type := "ONE_TO_MANY" }
          { id := "u1", name := "users", fields := [DEFAULT_FIELD "f1"] }
      ∧ (trimStr "" ≠ "" → newF.name = trimStr "")
      ∧ (trimStr "" = "" → newF.name = toLowerStr "users" ++ "_id")
      ∧ newF.type = (DEFAULT_FIELD "f1").type
      ∧ newF.isForeignKey = true
      ∧ newF.references = "u1"
      ∧ newF.isNull = false
      ∧ newF.isUnique = false
      ∧ (saveRelationship
        { tables := [{ id := "u1", name := "users", fields := [DEFAULT_FIELD "f1"] },
                     { id := "o1", name := "orders", fields := [DEFAULT_FIELD "f2"] }],
          relationships := [], dialect := "postgres" }
        { parentTableId := "u1", childTableId := "o1", parentField := "",
          childField := "", type := "ONE_TO_MANY" }
        "jt" "df" "fa" "fb" "nf" "nr").1.relationships = [] ++ [r]
      ∧ r.parentField = (DEFAULT_FIELD "f1").name
      ∧ r.childField = resolveFkName
          { parentTableId := "u1", childTableId := "o1", parentField := "",
            childField := "", type := "ONE_TO_MANY" }
          { id := "u1", name := "users", fields := [DEFAULT_FIELD "f1"] }
      ∧ r.parentTableId = "u1" ∧ r.childTableId = "o1"
      ∧ r.type = "ONE_TO_MANY" :=
  saveRelationship_one_to_many_new_fk
    { tables := [{ id := "u1", name := "users", fields := [DEFAULT_FIELD "f1"] },
                 { id := "o1", name := "orders", fields := [DEFAULT_FIELD "f2"] }],
      relationships := [], dialect := "postgres" }
    { parentTableId := "u1", childTableId := "o1", parentField := "",
      childField := "", type := "ONE_TO_MANY" }
    "jt" "df" "fa" "fb" "nf" "nr"
    { id := "u1", name := "users", fields := [DEFAULT_FIELD "f1"] }
    { id := "o1", name := "orders", fields := [DEFAULT_FIELD "f2"] }
    (DEFAULT_FIELD "f1")
    (by decide) (by decide) (by decide) (by decide) (by decide) rfl
    (by decide) (by decide) (by decide)

/-- Claim C8: deleting a stored MANY_TO_MANY relationship removes
exactly that relationship record (no other record is removed); when the
structural lookup finds a table having a foreign-key field referencing
either endpoint of the relationship, that entire table is removed from
the store, and when no such table exists the table collection is left
unchanged. -/
theorem deleteRelationship_many_to_many (s : DesignerState) (relId : String)
    (rel : Relationship)
    (hfind : s.relationships.find? (fun r => r.id == relId) = some rel)
    (ht : rel.type = "MANY_TO_MANY") :
    (deleteRelationship s relId).relationships
      = s.relationships.filter (fun r => r.id ≠ relId)
    ∧ (∀ r ∈ s.relationships, r.id ≠ relId →
        r ∈ (deleteRelationship s relId).relationships)
    ∧ (∀ jt, findJoinTable s.tables rel = some jt →
        (deleteRelationship s relId).tables = s.tables.filter (fun t => t.id ≠ jt.id)
        ∧ jt ∈ s.tables
        ∧ jt.fields.any (fun f => f.isForeignKey
            && (f.references == rel.parentTableId || f.references == rel.childTableId)) = true)
    ∧ (findJoinTable s.tables rel = none →
        (deleteRelationship s relId).tables = s.tables) := by
  refine ⟨?_, ?_, ?_, ?_⟩
  · simp [deleteRelationship, hfind, ht]
  · intro r hr hne
    simp only [deleteRelationship, hfind, ht, if_pos]
    simp [List.mem_filter, hr, hne]
  · intro jt hjt
    refine ⟨?_, List.mem_of_find?_eq_some hjt, ?_⟩
    · simp [deleteRelationship, hfind, ht, hjt]
    · have := List.find?_some hjt
      simpa using this
  · intro hnone
    simp [deleteRelationship, hfind, ht, hnone]

/-- Concrete instance of claim C8: deleting the stored MANY_TO_MANY
relationship removes the join table found by the structural lookup and
only the matching relationship record. -/
theorem deleteRelationship_many_to_many_witness :
    (deleteRelationship
      { tables := [{ id := "u1", name := "users", fields := [DEFAULT_FIELD "f1"] },
                   { id := "t1", name := "tags", fields := [DEFAULT_FIELD "f2"] },
                   { id := "j1", name := "users_tags_join",
                     fields := [DEFAULT_FIELD "f3",
                       { id := "f4", name := "users_id", type := "INTEGER",
                         isForeignKey := true, references := "u1" },
                       { id := "f5", name := "tags_id", type := "INTEGER",
                         isForeignKey := true, references := "t1" }] }],
        relationships := [{ id := "r1", parentTableId := "u1", childTableId := "t1",
                            parentField := "", childField := "",
                            type := "MANY_TO_MANY" },
                          { id := "r2", parentTableId := "x1", childTableId := "x2",
                            parentField := "", childField := "",
                            type := "ONE_TO_MANY" }],
        dialect := "postgres" } "r1").relationships
      = [{ id := "r2", parentTableId := "x1", childTableId := "x2",
           parentField := "", childField := "", type := "ONE_TO_MANY" }]
    ∧ (deleteRelationship
      { tables := [{ id := "u1", name := "users", fields := [DEFAULT_FIELD "f1"] },
                   { id := "t1", name := "tags", fields := [DEFAULT_FIELD "f2"] },
                   { id := "j1", name := "users_tags_join",
                     fields := [DEFAULT_FIELD "f3",
                       { id := "f4", name := "users_id", type := "INTEGER",
                         isForeignKey := true, references := "u1" },
                       { id := "f5", name := "tags_id", type := "INTEGER",
                         isForeignKey := true, references := "t1" }] }],
        relationships := [{ id := "r1", parentTableId := "u1", childTableId := "t1",
                            parentField := "", childField := "",
                            type := "MANY_TO_MANY" },
                          { id := "r2", parentTableId := "x1", childTableId := "x2",
                            parentField := "", childField := "",
                            type := "ONE_TO_MANY" }],
        dialect := "postgres" } "r1").tables.map Table.id = ["u1", "t1"] := by
  have h := deleteRelationship_many_to_many
    { tables := [{ id := "u1", name := "users", fields := [DEFAULT_FIELD "f1"] },
                 { id := "t1", name := "tags", fields := [DEFAULT_FIELD "f2"] },
                 { id := "j1", name := "users_tags_join",
                   fields := [DEFAULT_FIELD "f3",
                     { id := "f4", name := "users_id", type := "INTEGER",
                       isForeignKey := true, references := "u1" },
                     { id := "f5", name := "tags_id", type := "INTEGER",
                       isForeignKey := true, references := "t1" }] }],
      relationships := [{ id := "r1", parentTableId := "u1", childTableId := "t1",
                          parentField := "", childField := "",
                          type := "MANY_TO_MANY" },
                        { id := "r2", parentTableId := "x1", childTableId := "x2",
                          parentField := "", childField := "",
                          type := "ONE_TO_MANY" }],
      dialect := "postgres" } "r1"
    { id := "r1", parentTableId := "u1", childTableId := "t1",
      parentField := "", childField := "", type := "MANY_TO_MANY" }
    (by decide) rfl
  refine ⟨?_, ?_⟩
  · rw [h.1]; decide
  · have hjt := h.2.2.1
      { id := "j1", name := "users_tags_join",
        fields := [DEFAULT_FIELD "f3",
          { id := "f4", name := "users_id", type := "INTEGER",
            isForeignKey := true, references := "u1" },
          { id := "f5", name := "tags_id", type := "INTEGER",
            isForeignKey := true, references := "t1" }] } (by decide)
    rw [hjt.1]
    decide

/-- Column line as the specification words it: the quoted name and the
type, followed in this fixed order by PRIMARY KEY when `isPrimary`, NOT
NULL when neither nullable nor primary, UNIQUE when `isUnique`, and
DEFAULT with the quoted value when a non-empty default is set. -/
def specColumnLine (forDialect : String) (f : Field) : String :=
  "  " ++ escapeId forDialect f.name ++ " " ++ f.type
    ++ (if f.isPrimary then " " ++ "PRIMARY KEY" else "")
    ++ (if ¬ f.isNull ∧ ¬ f.isPrimary then " " ++ "NOT NULL" else "")
    ++ (if f.isUnique then " " ++ "UNIQUE" else "")
    ++ (if f.default ≠ "" then " " ++ ("DEFAULT '" ++ f.default ++ "'") else "")

/-- FOREIGN KEY line a foreign-key field contributes when its reference
resolves: the quoted field, the quoted referenced table and its
primary-key column. -/
def specFkLine (allTables : List Table) (forDialect : String) (f : Field) : String :=
  match allTables.find? (fun tt => tt.id == f.references) with
  | some parent =>
    "  ,FOREIGN KEY (" ++ escapeId forDialect f.name ++ ") REFERENCES "
      ++ escapeId forDialect parent.name ++ "(" ++ escapeId forDialect (pkNameOrId parent) ++ ")"
  | none => ""

theorem fieldDef_eq_specColumnLine (forDialect : String) (f : Field) :
    fieldDef forDialect f = specColumnLine forDialect f := by
  unfold fieldDef specColumnLine
  cases hP : f.isPrimary <;> cases hN : f.isNull <;> cases hU : f.isUnique <;>
    by_cases hD : f.default = "" <;>
      simp [hP, hN, hU, hD, joinSep, String.append_assoc, String.append_empty] <;>
      (apply String.ext; simp [String.data_append])

theorem fkDefs_eq_map (tables : List Table) (forDialect : String) : ∀ (fields : List Field),
    (∀ f ∈ fields, f.isForeignKey = true →
      f.references ≠ "" ∧ (tables.find? (fun p => p.id == f.references)).isSome = true) →
    fkDefs tables forDialect fields
      = (fields.filter (fun f => f.isForeignKey)).map (specFkLine tables forDialect) := by
  intro fields
  induction fields with
  | nil => intro _; rfl
  | cons f fs ih =>
    intro h
    have ih' := ih (fun g hg => h g (List.mem_cons_of_mem f hg))
    cases hfk : f.isForeignKey with
    | false =>
      unfold fkDefs at ih' ⊢
      simp [List.filter_cons, hfk, ih']
    | true =>
      obtain ⟨hrefs, hsome⟩ := h f (List.mem_cons_self f fs) hfk
      obtain ⟨parent, hparent⟩ := Option.isSome_iff_exists.mp hsome
      unfold fkDefs at ih' ⊢
      simp [List.filter_cons, hfk, hrefs, hparent, ih', specFkLine]

/-- Claim C7: in the generated DDL, each table's CREATE TABLE statement
consists of one column line per field, in field order, rendered as the
quoted name and type followed in this fixed order by PRIMARY KEY,
NOT NULL (when not nullable and not primary), UNIQUE, and DEFAULT with
a non-empty value; then one FOREIGN KEY line per foreign-key field in
field order (stated here for stores where every foreign key's reference
resolves — a dangling reference emits no line, see the dangling-FK
claim); the lines are comma-joined and the statement is closed by the
`);` line. -/
theorem generateSQL_table_statement (s : DesignerState) (forDialect : String) (t : Table)
    (htmem : t ∈ s.tables)
    (hfk : ∀ f ∈ t.fields, f.isForeignKey = true →
      f.references ≠ "" ∧ ∃ p ∈ s.tables, p.id = f.references) :
    tableBlock s.tables forDialect t
      = ["CREATE TABLE " ++ escapeId forDialect t.name ++ " (",
         joinSep ",\n" (t.fields.map (specColumnLine forDialect)
           ++ (t.fields.filter (fun f => f.isForeignKey)).map (specFkLine s.tables forDialect)),
         ");\n"]
    ∧ generateSQL s forDialect
      = joinSep "\n" (["-- Generated by SQLMaker", "-- Dialect: " ++ forDialect, ""]
          ++ (s.tables.map (tableBlock s.tables forDialect)).flatten) := by
  refine ⟨?_, rfl⟩
  have h1 : t.fields.map (fieldDef forDialect) = t.fields.map (specColumnLine forDialect) :=
    List.map_congr_left (fun f _ => fieldDef_eq_specColumnLine forDialect f)
  have h2 : fkDefs s.tables forDialect t.fields
      = (t.fields.filter (fun f => f.isForeignKey)).map (specFkLine s.tables forDialect) := by
    apply fkDefs_eq_map
    intro f hf hfk'
    obtain ⟨hrefs, p, hp, hpid⟩ := hfk f hf hfk'
    exact ⟨hrefs, List.find?_isSome.mpr ⟨p, hp, by simp [hpid]⟩⟩
  unfold tableBlock
  rw [h1, h2]

/-- Concrete instance of claim C7: the `orders` table with a resolving
foreign key renders as the spec-shaped statement. -/
theorem generateSQL_table_statement_witness :
    tableBlock
      [{ id := "u1", name := "users", fields := [DEFAULT_FIELD "f1"] },
       { id := "o1", name := "orders",
         fields := [DEFAULT_FIELD "f2",
           { id := "f3", name := "users_id", type := "INTEGER",
             isForeignKey := true, references := "u1", isNull := false }] }]
      "postgres"
      { id := "o1", name := "orders",
        fields := [DEFAULT_FIELD "f2",
          { id := "f3", name := "users_id", type := "INTEGER",
            isForeignKey := true, references := "u1", isNull := false }] }
      = ["CREATE TABLE " ++ escapeId "postgres" "orders" ++ " (",
         joinSep ",\n"
           (([DEFAULT_FIELD "f2",
              { id := "f3", name := "users_id", type := "INTEGER",
                isForeignKey := true, references := "u1",
                isNull := false }] : List Field).map (specColumnLine "postgres")
             ++ (([DEFAULT_FIELD "f2",
                  { id := "f3", name := "users_id", type := "INTEGER",
                    isForeignKey := true, references := "u1",
                    isNull := false }] : List Field).filter
                    (fun f => f.isForeignKey)).map (specFkLine
                 [{ id := "u1", name := "users", fields := [DEFAULT_FIELD "f1"] },
                  { id := "o1", name := "orders",
                    fields := [DEFAULT_FIELD "f2",
                      { id := "f3", name := "users_id", type := "INTEGER",
                        isForeignKey := true, references := "u1",
                        isNull := false }] }] "postgres")),
         ");\n"]
    ∧ generateSQL
        { tables :=
            [{ id := "u1", name := "users", fields := [DEFAULT_FIELD "f1"] },
             { id := "o1", name := "orders",
               fields := [DEFAULT_FIELD "f2",
                 { id := "f3", name := "users_id", type := "INTEGER",
                   isForeignKey := true, references := "u1", isNull := false }] }],
          relationships := [], dialect := "postgres" } "postgres"
      = joinSep "\n" (["-- Generated by SQLMaker", "-- Dialect: " ++ "postgres", ""]
          ++ (([{ id := "u1", name := "users", fields := [DEFAULT_FIELD "f1"] },
               { id := "o1", name := "orders",
                 fields := [DEFAULT_FIELD "f2",
                   { id := "f3", name := "users_id", type := "INTEGER",
                     isForeignKey := true, references := "u1",
                     isNull := false }] }] : List Table).map (tableBlock
                 [{ id := "u1", name := "users", fields := [DEFAULT_FIELD "f1"] },
                  { id := "o1", name := "orders",
                    fields := [DEFAULT_FIELD "f2",
                      { id := "f3", name := "users_id", type := "INTEGER",
                        isForeignKey := true, references := "u1",
                        isNull := false }] }] "postgres")).flatten) :=
  generateSQL_table_statement
    { tables :=
        [{ id := "u1", name := "users", fields := [DEFAULT_FIELD "f1"] },
         { id := "o1", name := "orders",
           fields := [DEFAULT_FIELD "f2",
             { id := "f3", name := "users_id", type := "INTEGER",
               isForeignKey := true, references := "u1", isNull := false }] }],
      relationships := [], dialect := "postgres" } "postgres"
    { id := "o1", name := "orders",
      fields := [DEFAULT_FIELD "f2",
        { id := "f3", name := "users_id", type := "INTEGER",
          isForeignKey := true, references := "u1", isNull := false }] }
    (by decide) (by decide)

/-- Claim C10: a foreign-key field whose reference matches no table id
in the store contributes no FOREIGN KEY line to its table's statement —
the foreign-key lines are exactly those of the other fields — while its
column definition line is still emitted and the statement keeps its
well-formed three-line block closed by `);`. -/
theorem generateSQL_dangling_fk (s : DesignerState) (forDialect tid tname : String)
    (fs₁ fs₂ : List Field) (f : Field)
    (hfk : f.isForeignKey = true)
    (hdangling : ∀ p ∈ s.tables, p.id ≠ f.references) :
    fkDefs s.tables forDialect (fs₁ ++ f :: fs₂) = fkDefs s.tables forDialect (fs₁ ++ fs₂)
    ∧ tableBlock s.tables forDialect { id := tid, name := tname, fields := fs₁ ++ f :: fs₂ }
      = ["CREATE TABLE " ++ escapeId forDialect tname ++ " (",
         joinSep ",\n" ((fs₁ ++ f :: fs₂).map (fieldDef forDialect)
           ++ fkDefs s.tables forDialect (fs₁ ++ fs₂)),
         ");\n"]
    ∧ fieldDef forDialect f ∈ (fs₁ ++ f :: fs₂).map (fieldDef forDialect) := by
  have hnone : s.tables.find? (fun tt => tt.id == f.references) = none :=
    List.find?_eq_none.mpr (fun p hp => by simpa using hdangling p hp)
  have h1 : fkDefs s.tables forDialect (fs₁ ++ f :: fs₂)
      = fkDefs s.tables forDialect (fs₁ ++ fs₂) := by
    unfold fkDefs
    rw [List.filter_append, List.filter_append, List.filterMap_append, List.filterMap_append]
    congr 1
    rw [List.filter_cons]
    by_cases hr : f.references = ""
    · rw [if_neg (by simp [hr])]
    · rw [if_pos (by simp [hfk, hr]), List.filterMap_cons]
      simp [hnone]
  refine ⟨h1, ?_, ?_⟩
  · unfold tableBlock
    rw [h1]
  · exact List.mem_map_of_mem _ (by simp)

/-- Concrete instance of claim C10: a table whose foreign key references
the deleted table id `gone` still renders its column line and a closed
statement, with no FOREIGN KEY line. -/
theorem generateSQL_dangling_fk_witness :
    fkDefs [{ id := "o1", name := "orders",
              fields := [DEFAULT_FIELD "f2",
                { id := "f3", name := "users_id", type := "INTEGER",
                  isForeignKey := true, references := "gone",
                  isNull := false }] }] "postgres"
        [DEFAULT_FIELD "f2",
          { id := "f3", name := "users_id", type := "INTEGER",
            isForeignKey := true, references := "gone", isNull := false }]
      = fkDefs [{ id := "o1", name := "orders",
                  fields := [DEFAULT_FIELD "f2",
                    { id := "f3", name := "users_id", type := "INTEGER",
                      isForeignKey := true, references := "gone",
                      isNull := false }] }] "postgres" [DEFAULT_FIELD "f2"]
    ∧ tableBlock [{ id := "o1", name := "orders",
                    fields := [DEFAULT_FIELD "f2",
                      { id := "f3", name := "users_id", type := "INTEGER",
                        isForeignKey := true, references := "gone",
                        isNull := false }] }] "postgres"
        { id := "o1", name := "orders",
          fields := [DEFAULT_FIELD "f2",
            { id := "f3", name := "users_id", type := "INTEGER",
              isForeignKey := true, references := "gone", isNull := false }] }
      = ["CREATE TABLE " ++ escapeId "postgres" "orders" ++ " (",
         joinSep ",\n" ((([DEFAULT_FIELD "f2",
           { id := "f3", name := "users_id", type := "INTEGER",
             isForeignKey := true, references := "gone",
             isNull := false }]) : List Field).map (fieldDef "postgres")
           ++ fkDefs [{ id := "o1", name := "orders",
                         fields := [DEFAULT_FIELD "f2",
                           { id := "f3", name := "users_id", type := "INTEGER",
                             isForeignKey := true, references := "gone",
                             isNull := false }] }] "postgres" [DEFAULT_FIELD "f2"]),
         ");\n"]
    ∧ fieldDef "postgres"
        { id := "f3", name := "users_id", type := "INTEGER",
          isForeignKey := true, references := "gone", isNull := false }
      ∈ (([DEFAULT_FIELD "f2",
          { id := "f3", name := "users_id", type := "INTEGER",
            isForeignKey := true, references := "gone",
            isNull := false }]) : List Field).map (fieldDef "postgres") :=
  generateSQL_dangling_fk
    { tables := [{ id := "o1", name := "orders",
                   fields := [DEFAULT_FIELD "f2",
                     { id := "f3", name := "users_id", type := "INTEGER",
                       isForeignKey := true, references := "gone",
                       isNull := false }] }],
      relationships := [], dialect := "postgres" }
    "postgres" "o1" "orders" [DEFAULT_FIELD "f2"] []
    { id := "f3", name := "users_id", type := "INTEGER",
      isForeignKey := true, references := "gone", isNull := false }
    (by decide) (by decide)

end SQLMaker
